import Mathlib

/-!
Shallow embedding of the generator engine of the TTRPG GM Tools MCP
server (`cloudflare-mcp-server/src/index.js`).

Modelling conventions:

* Each `Math.floor(Math.random() * bound)` call is driven by one value of a
  pluggable random stream `g : Nat → Nat`; draw number `i` with bound `b`
  yields `randBelow (g i) b`.  For `bound = 0` JavaScript yields `0`.
* JSON objects read from the remote tables are modelled per the table shape
  each generator consumes: nested association lists (`List (String × _)`),
  with `List.lookup` playing the role of property access (absent key =
  `undefined`).
* Opaque record values (encounter records) are association lists over a
  small JSON-value type `JVal`; JavaScript object-literal semantics give
  the *last* duplicate key precedence, captured by `jget`.
* A generator's soft "not found" payload is the `GenResult.err` constructor;
  a thrown JavaScript error is the `Except.error` constructor of the
  fetch-composed call wrappers (and of `generate_treasure`, whose
  un-guarded `data.treasure[type][crRange]` lookup can throw a TypeError).
-/

namespace MCP

/-- JSON-ish scalar values appearing in opaque table records. -/
inductive JVal : Type
  | str : String → JVal
  | num : Int → JVal
deriving DecidableEq, Repr

/-- An opaque JSON record: ordered field list, later duplicates override. -/
abbrev Rec := List (String × JVal)

/-- Field access on a record built by a JS object literal: the *last*
binding of a key wins (spread-merge semantics). -/
def jget (r : Rec) (k : String) : Option JVal := r.reverse.lookup k

/-- One `Math.floor(Math.random() * bound)` outcome, from raw draw `x`.
JavaScript yields `0` when the bound is `0`. -/
def randBelow (x bound : Nat) : Nat := if bound = 0 then 0 else x % bound

/-- A generator's immediate result: a populated record (`ok`) or the soft
"not found" payload `{error: msg}` (`err`). Thrown failures live in a
surrounding `Except`. -/
inductive GenResult (α : Type) : Type
  | ok : α → GenResult α
  | err : String → GenResult α
deriving DecidableEq, Repr

/-! ### generate_encounter -/

/-- encounters.json: environment → difficulty → sequence of records. -/
abbrev EncTable := List (String × List (String × List Rec))

/-- `data.encounters[environment]?.[difficulty] || []`. -/
def encountersFor (tbl : EncTable) (environment difficulty : String) : List Rec :=
  (((tbl.lookup environment).bind (fun m => m.lookup difficulty))).getD []

/-- `generate_encounter({level, environment, difficulty})` (default
`difficulty = "medium"` is supplied by the dispatcher). -/
def generate_encounter (level : Int) (environment difficulty : String)
    (tbl : EncTable) (g : Nat → Nat) : GenResult Rec :=
  let encounters := encountersFor tbl environment difficulty
  if encounters.length = 0 then
    .err ("No encounters found for " ++ environment ++ " / " ++ difficulty)
  else
    let encounter := encounters.getD (randBelow (g 0) encounters.length) []
    .ok ([("environment", JVal.str environment),
          ("difficulty", JVal.str difficulty),
          ("partyLevel", JVal.num level)] ++ encounter)

/-! ### generate_npc_name -/

/-- names.json: race → gender → sequence of strings. -/
abbrev NameTable := List (String × List (String × List String))

structure NameResult where
  name : String
  race : String
  gender : String
deriving DecidableEq, Repr

/-- `generate_npc_name({race, gender})`. -/
def generate_npc_name (race gender : String) (tbl : NameTable)
    (g : Nat → Nat) : GenResult NameResult :=
  let names := (((tbl.lookup race).bind (fun m => m.lookup gender))).getD []
  if names.length = 0 then
    .err ("No names found for " ++ race ++ " / " ++ gender)
  else
    .ok { name := names.getD (randBelow (g 0) names.length) "undefined",
          race := race, gender := gender }

/-! ### generate_location_name -/

structure LocEntry where
  prefixes : List String
  suffixes : List String
deriving DecidableEq, Repr

/-- locations.json: type → {prefixes, suffixes}. -/
abbrev LocTable := List (String × LocEntry)

structure LocResult where
  name : String
  type : String
deriving DecidableEq, Repr

/-- `generate_location_name({type})`: one prefix and one suffix drawn
independently (draws 0 and 1), joined by a single space. -/
def generate_location_name (type_ : String) (tbl : LocTable)
    (g : Nat → Nat) : GenResult LocResult :=
  match tbl.lookup type_ with
  | none => .err ("No location type found: " ++ type_)
  | some location =>
    let p := location.prefixes.getD (randBelow (g 0) location.prefixes.length) "undefined"
    let s := location.suffixes.getD (randBelow (g 1) location.suffixes.length) "undefined"
    .ok { name := p ++ " " ++ s, type := type_ }

/-! ### generate_personality -/

/-- traits.json: five category sequences. -/
structure TraitsTable where
  traits : List String
  ideals : List String
  bonds : List String
  flaws : List String
  quirks : List String
deriving DecidableEq, Repr

structure PersonalityResult where
  traits : List String
deriving DecidableEq, Repr

/-- Body of one iteration of the selection loop: draw a trait from the full
pool (draw index = loop index) and push it unless already selected. -/
def personalityStep (allTraits : List String) (g : Nat → Nat)
    (selected : List String) (i : Nat) : List String :=
  let trait := allTraits.getD (randBelow (g i) allTraits.length) "undefined"
  if trait ∈ selected then selected else selected ++ [trait]

/-- The concatenated pool `[...data.traits, ...data.ideals, ...data.bonds,
...data.flaws, ...data.quirks]`. -/
def allTraitsOf (tbl : TraitsTable) : List String :=
  tbl.traits ++ tbl.ideals ++ tbl.bonds ++ tbl.flaws ++ tbl.quirks

/-- The selection loop: `min count allTraits.length` iterations, skipping
duplicate draws without retry. -/
def personalitySelect (count : Nat) (tbl : TraitsTable)
    (g : Nat → Nat) : List String :=
  (List.range (min count (allTraitsOf tbl).length)).foldl
    (personalityStep (allTraitsOf tbl) g) []

/-- `generate_personality({count})` (default `count = 4` supplied by the
dispatcher). -/
def generate_personality (count : Nat) (tbl : TraitsTable)
    (g : Nat → Nat) : GenResult PersonalityResult :=
  .ok { traits := personalitySelect count tbl g }

/-! ### generate_treasure -/

/-- One coin entry of a treasure bucket: `{dice: "NdM", multiplier}`.
(The real buckets also carry a sibling key literally named "items", which
the coin loop skips by name; such an entry is never read as dice data.) -/
structure DiceData where
  dice : String
  multiplier : Int
deriving DecidableEq, Repr

/-- A CR bucket: coin-kind → dice data, in object-entry order. -/
abbrev CoinSpec := List (String × DiceData)

structure ItemPools where
  magic_medium : List String
  magic_major : List String
deriving DecidableEq, Repr

/-- treasure.json: the per-type bucket maps, plus the `items` pools that sit
beside them in the same top-level object. -/
structure TreasureTable where
  byType : List (String × List (String × CoinSpec))
  items : ItemPools
deriving DecidableEq, Repr

structure TreasureResult where
  challengeRating : Int
  type : String
  coins : List (String × Int)
  items : List String
deriving DecidableEq, Repr

/-- CR bucket selection: the ordered threshold chain of the source
(`cr0-4` default, overridden by the first matching `>=` test from 17 down). -/
def crRange (cr : Int) : String :=
  if cr ≥ 17 then "cr17+"
  else if cr ≥ 11 then "cr11-16"
  else if cr ≥ 5 then "cr5-10"
  else "cr0-4"

/-- JavaScript `String.prototype.split` with a one-character separator,
over the character list ( `"".split(c)` is `[""]`, a trailing separator
yields a trailing empty chunk). -/
def splitChar (sep : Char) : List Char → List (List Char)
  | [] => [[]]
  | c :: rest =>
    if c = sep then [] :: splitChar sep rest
    else
      match splitChar sep rest with
      | [] => [[c]]
      | chunk :: more => (c :: chunk) :: more

/-- JavaScript `parseInt` on a character list: the value of the longest
leading digit run; with no leading digit the JS result is `NaN`, collapsed
here to `0` (the `NaN` roll bound runs the roll loop zero times, producing
the same `0` total as `numDice = 0`). -/
def jsParseInt : List Char → Nat
  | [] => 0
  | c :: rest =>
    if '0' ≤ c ∧ c ≤ '9' then
      (c :: List.takeWhile (fun d => '0' ≤ d ∧ d ≤ '9') rest).foldl
        (fun n d => n * 10 + (d.toNat - 48)) 0
    else 0

/-- `diceData.dice.split('d')` followed by `parseInt` on the first two
chunks (`rolls[0]`, `rolls[1]`); an out-of-range index is `undefined`,
whose `parseInt` is the collapsed `0`. -/
def parseDice (s : String) : Nat × Nat :=
  let rolls := splitChar 'd' s.toList
  (jsParseInt (rolls.getD 0 []), jsParseInt (rolls.getD 1 []))

/-- Sum of `numDice` rolls `Math.floor(Math.random() * diceSize) + 1`,
consuming draws `k, k+1, …`. -/
def rollSum (g : Nat → Nat) (k numDice diceSize : Nat) : Nat :=
  (List.range numDice).foldl (fun total i => total + (randBelow (g (k + i)) diceSize + 1)) 0

/-- The coin loop over a bucket's entries, skipping the key literally named
"items"; returns the coin record and the index of the next unused draw. -/
def coinLoop (g : Nat → Nat) : CoinSpec → Nat → List (String × Int) × Nat
  | [], k => ([], k)
  | (coinType, diceData) :: rest, k =>
    if coinType = "items" then coinLoop g rest k
    else
      let nd := (parseDice diceData.dice).1
      let ds := (parseDice diceData.dice).2
      let value := (rollSum g k nd ds : Int) * diceData.multiplier
      let next := coinLoop g rest (k + nd)
      ((coinType, value) :: next.1, next.2)

/-- The hoard item draws: when `type == "hoard" && cr >= 5`, one draw with
bound 3 fixes the count, then that many pool picks. `k` is the first unused
draw index after the coin loop. -/
def hoardItems (cr : Int) (type_ : String) (pools : ItemPools)
    (g : Nat → Nat) (k : Nat) : List String :=
  if type_ = "hoard" ∧ 5 ≤ cr then
    let itemPool := if 11 ≤ cr then pools.magic_major else pools.magic_medium
    let numItems := randBelow (g k) 3 + 1
    (List.range numItems).map
      (fun i => itemPool.getD (randBelow (g (k + 1 + i)) itemPool.length) "undefined")
  else []

/-- `generate_treasure({cr, type})` (default `type = "individual"` supplied
by the dispatcher).  `data.treasure[type][crRange]` is *not* optional-chained:
when the type key is absent the property access on `undefined` throws a
TypeError, modelled as `Except.error`.  A present type with an absent bucket
merely skips the coin loop (`if (treasureData)`). -/
def generate_treasure (cr : Int) (type_ : String) (tbl : TreasureTable)
    (g : Nat → Nat) : Except String TreasureResult :=
  let bucket := crRange cr
  match tbl.byType.lookup type_ with
  | none =>
    .error ("Cannot read properties of undefined (reading '" ++ bucket ++ "')")
  | some bucketMap =>
    let st := match bucketMap.lookup bucket with
      | some treasureData => coinLoop g treasureData 0
      | none => ([], 0)
    .ok { challengeRating := cr, type := type_, coins := st.1,
          items := hoardItems cr type_ tbl.items g st.2 }

/-! ### generate_weather -/

/-- weather.json: climate → (season ∪ "any") → sequence of strings. -/
abbrev WeatherTable := List (String × List (String × List String))

structure WeatherResult where
  climate : String
  season : Option String
  description : String
deriving DecidableEq, Repr

/-- The ternary condition `season && data.weather[climate]?.[season]`:
truthy iff a non-empty-string season was supplied and its entry exists.
NOTE: an *empty list* entry is truthy in JavaScript, so it passes. -/
def seasonEntry (tbl : WeatherTable) (climate : String)
    (season : Option String) : Option (List String) :=
  match season with
  | none => none
  | some s => if s = "" then none else (tbl.lookup climate).bind (fun m => m.lookup s)

/-- The ternary's selected pool: the season entry when the condition is
truthy, else `data.weather[climate]?.any || []`. -/
def weatherOptionsOf (tbl : WeatherTable) (climate : String)
    (season : Option String) : List String :=
  match seasonEntry tbl climate season with
  | some l => l
  | none => ((tbl.lookup climate).bind (fun m => m.lookup "any")).getD []

/-- `generate_weather({climate, season})`.  The error message renders an
absent season as the string "undefined", as the JS template literal does. -/
def generate_weather (climate : String) (season : Option String)
    (tbl : WeatherTable) (g : Nat → Nat) : GenResult WeatherResult :=
  let weatherOptions := weatherOptionsOf tbl climate season
  if weatherOptions.length = 0 then
    .err ("No weather found for " ++ climate ++ " / " ++ season.getD "undefined")
  else
    .ok { climate := climate, season := season,
          description := weatherOptions.getD (randBelow (g 0) weatherOptions.length) "undefined" }

/-! ### generate_plot_hook -/

/-- plot_hooks.json: theme → sequence of (opaque) hook records. -/
abbrev HookTable (α : Type) := List (String × List α)

structure PlotHookResult (α : Type) where
  theme : String
  suggestedLevel : Int
  hook : α
deriving DecidableEq, Repr

/-- `generate_plot_hook({theme, level})`. -/
def generate_plot_hook {α : Type} [Inhabited α] (theme : String) (level : Int)
    (tbl : HookTable α) (g : Nat → Nat) : GenResult (PlotHookResult α) :=
  let hooks := (tbl.lookup theme).getD []
  if hooks.length = 0 then
    .err ("No plot hooks found for theme: " ++ theme)
  else
    .ok { theme := theme, suggestedLevel := level,
          hook := hooks.getD (randBelow (g 0) hooks.length) default }

/-! ### Fetch-composed call wrappers

Each tool body first awaits `fetchData(...)`: a rejected fetch propagates
out of the tool call as a thrown failure (`Except.error`) before the
generator logic runs; a fulfilled fetch feeds the parsed table to the body.
-/

def generate_encounter_call (fetched : Except String EncTable) (level : Int)
    (environment difficulty : String) (g : Nat → Nat) :
    Except String (GenResult Rec) :=
  fetched.map (fun data => generate_encounter level environment difficulty data g)

def generate_npc_name_call (fetched : Except String NameTable)
    (race gender : String) (g : Nat → Nat) :
    Except String (GenResult NameResult) :=
  fetched.map (fun data => generate_npc_name race gender data g)

def generate_location_name_call (fetched : Except String LocTable)
    (type_ : String) (g : Nat → Nat) : Except String (GenResult LocResult) :=
  fetched.map (fun data => generate_location_name type_ data g)

def generate_personality_call (fetched : Except String TraitsTable)
    (count : Nat) (g : Nat → Nat) : Except String (GenResult PersonalityResult) :=
  fetched.map (fun data => generate_personality count data g)

/-- `generate_treasure` can itself throw (missing type key), so its body is
already `Except`-valued and the fetch composes by `bind`. -/
def generate_treasure_call (fetched : Except String TreasureTable) (cr : Int)
    (type_ : String) (g : Nat → Nat) : Except String TreasureResult :=
  fetched.bind (fun data => generate_treasure cr type_ data g)

def generate_weather_call (fetched : Except String WeatherTable)
    (climate : String) (season : Option String) (g : Nat → Nat) :
    Except String (GenResult WeatherResult) :=
  fetched.map (fun data => generate_weather climate season data g)

def generate_plot_hook_call {α : Type} [Inhabited α]
    (fetched : Except String (HookTable α)) (theme : String) (level : Int)
    (g : Nat → Nat) : Except String (GenResult (PlotHookResult α)) :=
  fetched.map (fun data => generate_plot_hook theme level data g)

/-! ### State-threaded variants

Each `_st` variant threads the fetched document as the JS heap object the
generator works on: every exit returns the document state as it stands at
that return point.  The source bodies contain no assignment into the
fetched data — they only read it and build fresh result objects — so each
exit hands back the state it received. -/

def generate_encounter_st (level : Int) (environment difficulty : String)
    (g : Nat → Nat) (data : EncTable) : GenResult Rec × EncTable :=
  let encounters := encountersFor data environment difficulty
  if encounters.length = 0 then
    (.err ("No encounters found for " ++ environment ++ " / " ++ difficulty), data)
  else
    let encounter := encounters.getD (randBelow (g 0) encounters.length) []
    (.ok ([("environment", JVal.str environment),
           ("difficulty", JVal.str difficulty),
           ("partyLevel", JVal.num level)] ++ encounter), data)

def generate_npc_name_st (race gender : String) (g : Nat → Nat)
    (data : NameTable) : GenResult NameResult × NameTable :=
  let names := (((data.lookup race).bind (fun m => m.lookup gender))).getD []
  if names.length = 0 then
    (.err ("No names found for " ++ race ++ " / " ++ gender), data)
  else
    (.ok { name := names.getD (randBelow (g 0) names.length) "undefined",
           race := race, gender := gender }, data)

def generate_location_name_st (type_ : String) (g : Nat → Nat)
    (data : LocTable) : GenResult LocResult × LocTable :=
  match data.lookup type_ with
  | none => (.err ("No location type found: " ++ type_), data)
  | some location =>
    let p := location.prefixes.getD (randBelow (g 0) location.prefixes.length) "undefined"
    let s := location.suffixes.getD (randBelow (g 1) location.suffixes.length) "undefined"
    (.ok { name := p ++ " " ++ s, type := type_ }, data)

def generate_personality_st (count : Nat) (g : Nat → Nat)
    (data : TraitsTable) : GenResult PersonalityResult × TraitsTable :=
  (.ok { traits := personalitySelect count data g }, data)

def generate_treasure_st (cr : Int) (type_ : String) (g : Nat → Nat)
    (data : TreasureTable) : Except String TreasureResult × TreasureTable :=
  let bucket := crRange cr
  match data.byType.lookup type_ with
  | none =>
    (.error ("Cannot read properties of undefined (reading '" ++ bucket ++ "')"), data)
  | some bucketMap =>
    let st := match bucketMap.lookup bucket with
      | some treasureData => coinLoop g treasureData 0
      | none => ([], 0)
    (.ok { challengeRating := cr, type := type_, coins := st.1,
           items := hoardItems cr type_ data.items g st.2 }, data)

def generate_weather_st (climate : String) (season : Option String)
    (g : Nat → Nat) (data : WeatherTable) : GenResult WeatherResult × WeatherTable :=
  let weatherOptions := weatherOptionsOf data climate season
  if weatherOptions.length = 0 then
    (.err ("No weather found for " ++ climate ++ " / " ++ season.getD "undefined"), data)
  else
    (.ok { climate := climate, season := season,
           description := weatherOptions.getD (randBelow (g 0) weatherOptions.length) "undefined" },
     data)

def generate_plot_hook_st {α : Type} [Inhabited α] (theme : String)
    (level : Int) (g : Nat → Nat) (data : HookTable α) :
    GenResult (PlotHookResult α) × HookTable α :=
  let hooks := (data.lookup theme).getD []
  if hooks.length = 0 then
    (.err ("No plot hooks found for theme: " ++ theme), data)
  else
    (.ok { theme := theme, suggestedLevel := level,
           hook := hooks.getD (randBelow (g 0) hooks.length) default }, data)

/-! ## Shared helper lemmas -/

theorem lookup_append {α : Type} (k : String) (l₁ l₂ : List (String × α)) :
    (l₁ ++ l₂).lookup k = (l₁.lookup k).or (l₂.lookup k) := by
  induction l₁ with
  | nil => simp [List.lookup]
  | cons p rest ih =>
    obtain ⟨k', v⟩ := p
    simp only [List.cons_append, List.lookup]
    cases hkk : (k == k') <;> simp [ih]

theorem lookup_eq_none_of_not_mem_keys {α : Type} (k : String)
    (l : List (String × α)) (h : k ∉ l.map Prod.fst) : l.lookup k = none := by
  induction l with
  | nil => simp [List.lookup]
  | cons p rest ih =>
    obtain ⟨k', v⟩ := p
    simp only [List.map_cons, List.mem_cons] at h
    push_neg at h
    have hb : (k == k') = false := beq_eq_false_iff_ne.mpr h.1
    simp [List.lookup, hb, ih h.2]

theorem randBelow_lt (x : Nat) {bound : Nat} (h : bound ≠ 0) :
    randBelow x bound < bound := by
  simp only [randBelow, if_neg h]
  exact Nat.mod_lt _ (Nat.pos_of_ne_zero h)

theorem getD_mem_of_lt {α : Type} (l : List α) (i : Nat) (d : α)
    (h : i < l.length) : l.getD i d ∈ l := by
  rw [List.getD_eq_getElem l d h]
  exact List.getElem_mem h

/-! ## Claims -/

/-- C1: `generate_treasure` selects its CR bucket by the ordered threshold
chain cr≥17 → "cr17+", else cr≥11 → "cr11-16", else cr≥5 → "cr5-10", else
"cr0-4"; in particular cr=16 selects "cr11-16" and cr=17 selects "cr17+". -/
theorem C1_cr_bucket_thresholds :
    (∀ cr : Int,
      (crRange cr = "cr17+" ↔ 17 ≤ cr)
      ∧ (crRange cr = "cr11-16" ↔ 11 ≤ cr ∧ cr < 17)
      ∧ (crRange cr = "cr5-10" ↔ 5 ≤ cr ∧ cr < 11)
      ∧ (crRange cr = "cr0-4" ↔ cr < 5))
    ∧ crRange 16 = "cr11-16" ∧ crRange 17 = "cr17+" := by
  refine ⟨fun cr => ?_, by decide, by decide⟩
  unfold crRange
  split_ifs <;> refine ⟨?_, ?_, ?_, ?_⟩ <;>
    simp_all [String.ext_iff] <;> omega

/-- C4 counterexample: the JS spread `{environment, difficulty,
partyLevel: level, ...encounter}` lets the encounter record override the
echoed fields.  With the single encounter record `{partyLevel: 99}` for
forest/medium, the returned `partyLevel` is 99, not the input level 1. -/
theorem C4_counterexample :
    (match generate_encounter 1 "forest" "medium"
        [("forest", [("medium", [[("partyLevel", JVal.num 99)]])])] (fun _ => 0) with
     | .ok r => jget r "partyLevel"
     | .err _ => none) ≠ some (JVal.num 1) := by decide

/-- C4 (amended): when the encounter list for (environment, difficulty) is
non-empty and the chosen records carry none of the keys "environment",
"difficulty", "partyLevel" themselves, the result echoes the inputs and the
caller's level as `partyLevel`. -/
theorem C4_encounter_echoes (level : Int) (environment difficulty : String)
    (tbl : EncTable) (g : Nat → Nat)
    (hne : encountersFor tbl environment difficulty ≠ [])
    (hclean : ∀ e ∈ encountersFor tbl environment difficulty,
      "environment" ∉ e.map Prod.fst ∧ "difficulty" ∉ e.map Prod.fst ∧
        "partyLevel" ∉ e.map Prod.fst) :
    ∃ r, generate_encounter level environment difficulty tbl g = .ok r
      ∧ jget r "environment" = some (JVal.str environment)
      ∧ jget r "difficulty" = some (JVal.str difficulty)
      ∧ jget r "partyLevel" = some (JVal.num level) := by
  have hlen : (encountersFor tbl environment difficulty).length ≠ 0 := by
    simpa [List.length_eq_zero] using hne
  have hidx : randBelow (g 0) (encountersFor tbl environment difficulty).length
      < (encountersFor tbl environment difficulty).length := randBelow_lt _ hlen
  have hmem := getD_mem_of_lt _ _ [] hidx
  obtain ⟨h1, h2, h3⟩ := hclean _ hmem
  have hrun : generate_encounter level environment difficulty tbl g =
      .ok ([("environment", JVal.str environment),
            ("difficulty", JVal.str difficulty),
            ("partyLevel", JVal.num level)]
        ++ (encountersFor tbl environment difficulty).getD
            (randBelow (g 0) (encountersFor tbl environment difficulty).length) []) := by
    simp only [generate_encounter]
    rw [if_neg hlen]
  have he1 : List.lookup "environment"
      (List.reverse ((encountersFor tbl environment difficulty).getD
        (randBelow (g 0) (encountersFor tbl environment difficulty).length) [])) = none :=
    lookup_eq_none_of_not_mem_keys _ _ (by simpa using h1)
  have he2 : List.lookup "difficulty"
      (List.reverse ((encountersFor tbl environment difficulty).getD
        (randBelow (g 0) (encountersFor tbl environment difficulty).length) [])) = none :=
    lookup_eq_none_of_not_mem_keys _ _ (by simpa using h2)
  have he3 : List.lookup "partyLevel"
      (List.reverse ((encountersFor tbl environment difficulty).getD
        (randBelow (g 0) (encountersFor tbl environment difficulty).length) [])) = none :=
    lookup_eq_none_of_not_mem_keys _ _ (by simpa using h3)
  refine ⟨_, hrun, ?_, ?_, ?_⟩
  · simp only [jget, List.reverse_append, lookup_append, he1]
    rfl
  · simp only [jget, List.reverse_append, lookup_append, he2]
    rfl
  · simp only [jget, List.reverse_append, lookup_append, he3]
    rfl

/-- C4 witness for the amended theorem. -/
theorem C4_witness :
    ∃ r, generate_encounter 3 "forest" "medium"
        [("forest", [("medium", [[("monster", JVal.str "wolf")]])])] (fun _ => 0) = .ok r
      ∧ jget r "environment" = some (JVal.str "forest")
      ∧ jget r "difficulty" = some (JVal.str "medium")
      ∧ jget r "partyLevel" = some (JVal.num 3) :=
  C4_encounter_echoes 3 "forest" "medium"
    [("forest", [("medium", [[("monster", JVal.str "wolf")]])])] (fun _ => 0)
    (by decide) (by decide)

/-- C3 counterexample: an *empty* season entry is truthy in JavaScript, so
the ternary keeps it instead of falling back to the non-empty "any" pool;
the call returns the soft error, not a description drawn from "any". -/
theorem C3_counterexample :
    generate_weather "desert" (some "winter")
        [("desert", [("winter", []), ("any", ["sunny"])])] (fun _ => 0)
      = .err "No weather found for desert / winter" := by decide

/-- C3 (amended): the season entry is used whenever the season was supplied
as a non-empty string and the entry exists — even when that entry is empty,
in which case the call returns `{error}` without falling back; in every
other case the "any" entry (empty when absent) is used; `{error}` is
returned exactly when the pool actually selected is empty; an `ok` result
echoes the caller-supplied climate and season verbatim. -/
theorem C3_weather_fallback (climate : String) (season : Option String)
    (tbl : WeatherTable) (g : Nat → Nat) :
    (∀ l, seasonEntry tbl climate season = some l →
      generate_weather climate season tbl g =
        (if l.length = 0 then
          .err ("No weather found for " ++ climate ++ " / " ++ season.getD "undefined")
        else .ok { climate := climate, season := season,
                   description := l.getD (randBelow (g 0) l.length) "undefined" }))
    ∧ (seasonEntry tbl climate season = none →
      generate_weather climate season tbl g =
        (let anyPool := ((tbl.lookup climate).bind (fun m => m.lookup "any")).getD []
        if anyPool.length = 0 then
          .err ("No weather found for " ++ climate ++ " / " ++ season.getD "undefined")
        else .ok { climate := climate, season := season,
                   description := anyPool.getD (randBelow (g 0) anyPool.length) "undefined" }))
    ∧ (∀ r, generate_weather climate season tbl g = .ok r →
        r.climate = climate ∧ r.season = season) := by
  refine ⟨fun l hl => ?_, fun hn => ?_, fun r hr => ?_⟩
  · simp only [generate_weather, weatherOptionsOf, hl]
  · simp only [generate_weather, weatherOptionsOf, hn]
  · simp only [generate_weather] at hr
    split at hr
    · cases hr
    · cases hr
      exact ⟨rfl, rfl⟩

/-- C3 witness: season "winter" absent for "desert", "any" present — the
fallback is used and the result still echoes season "winter". -/
theorem C3_witness :
    generate_weather "desert" (some "winter")
        [("desert", [("any", ["sunny"])])] (fun _ => 0)
      = .ok { climate := "desert", season := some "winter", description := "sunny" } :=
  ((C3_weather_fallback "desert" (some "winter")
      [("desert", [("any", ["sunny"])])] (fun _ => 0)).2.1 (by decide)).trans (by decide)

/-- C8 counterexample: `data.treasure[type][crRange]` is not optional-chained,
so a `type` key absent from the treasure table makes the bucket lookup throw
a TypeError instead of returning a normal record with empty coins. -/
theorem C8_counterexample :
    generate_treasure 4 "hoard"
        { byType := [("individual", [])], items := ⟨[], []⟩ } (fun _ => 0)
      = .error "Cannot read properties of undefined (reading 'cr0-4')" := rfl

/-- C8 (amended): provided the `type` key itself is present in the treasure
table, an absent CR bucket does not fail and is not a NotFound payload: the
coin loop is skipped and a normal record with empty coins is returned (the
hoard item draws still run from draw index 0). -/
theorem C8_missing_bucket (cr : Int) (ty : String) (tbl : TreasureTable)
    (g : Nat → Nat) (bucketMap : List (String × CoinSpec))
    (hty : tbl.byType.lookup ty = some bucketMap)
    (hb : bucketMap.lookup (crRange cr) = none) :
    generate_treasure cr ty tbl g =
      .ok { challengeRating := cr, type := ty, coins := [],
            items := hoardItems cr ty tbl.items g 0 } := by
  simp only [generate_treasure, hty, hb]

/-- C8 witness: an "individual" type with no buckets at all yields a normal
empty-coins record at cr 3. -/
theorem C8_witness :
    generate_treasure 3 "individual"
        { byType := [("individual", [])], items := ⟨[], []⟩ } (fun _ => 0)
      = .ok { challengeRating := 3, type := "individual", coins := [], items := [] } :=
  (C8_missing_bucket 3 "individual"
      { byType := [("individual", [])], items := ⟨[], []⟩ } (fun _ => 0) []
      (by decide) (by decide)).trans rfl

/-! ## Treasure helper lemmas -/

theorem hoardItems_if_pos (cr : Int) (pools : ItemPools) (g : Nat → Nat)
    (k : Nat) (hcr : 5 ≤ cr) :
    hoardItems cr "hoard" pools g k =
      (List.range (randBelow (g k) 3 + 1)).map
        (fun i => (if 11 ≤ cr then pools.magic_major else pools.magic_medium).getD
          (randBelow (g (k + 1 + i))
            (if 11 ≤ cr then pools.magic_major else pools.magic_medium).length)
          "undefined") := by
  unfold hoardItems
  rw [if_pos (⟨rfl, hcr⟩ : "hoard" = "hoard" ∧ 5 ≤ cr)]

theorem hoardItems_if_neg (cr : Int) (ty : String) (pools : ItemPools)
    (g : Nat → Nat) (k : Nat) (h : ¬(ty = "hoard" ∧ 5 ≤ cr)) :
    hoardItems cr ty pools g k = [] := by
  simp only [hoardItems, if_neg h]

theorem generate_treasure_ok_items (cr : Int) (ty : String) (tbl : TreasureTable)
    (g : Nat → Nat) (r : TreasureResult)
    (hr : generate_treasure cr ty tbl g = .ok r) :
    ∃ k, r.items = hoardItems cr ty tbl.items g k := by
  rcases hty : tbl.byType.lookup ty with _ | bucketMap
  · simp only [generate_treasure, hty] at hr
    cases hr
  · simp only [generate_treasure, hty] at hr
    cases hr
    exact ⟨_, rfl⟩

/-! ## Personality helper lemmas -/

theorem personality_foldl_nodup (allTraits : List String) (g : Nat → Nat)
    (l : List Nat) (init : List String) (h : init.Nodup) :
    (l.foldl (personalityStep allTraits g) init).Nodup := by
  induction l generalizing init with
  | nil => exact h
  | cons i rest ih =>
    simp only [List.foldl_cons]
    apply ih
    simp only [personalityStep]
    split
    · exact h
    · rename_i hnot
      exact List.Nodup.append h (List.nodup_singleton _)
        (fun a ha hb => hnot ((List.mem_singleton.mp hb) ▸ ha))

theorem personality_foldl_length (allTraits : List String) (g : Nat → Nat)
    (l : List Nat) (init : List String) :
    (l.foldl (personalityStep allTraits g) init).length ≤ init.length + l.length := by
  induction l generalizing init with
  | nil => simp
  | cons i rest ih =>
    simp only [List.foldl_cons, List.length_cons]
    refine le_trans (ih _) ?_
    have : (personalityStep allTraits g init i).length ≤ init.length + 1 := by
      simp only [personalityStep]
      split <;> simp
    omega

theorem personality_foldl_stable (allTraits : List String) (g : Nat → Nat)
    (t : String) (l : List Nat) (init : List String)
    (ht : t ∈ init)
    (hconst : ∀ i, allTraits.getD (randBelow (g i) allTraits.length) "undefined" = t) :
    l.foldl (personalityStep allTraits g) init = init := by
  induction l with
  | nil => rfl
  | cons i rest ih =>
    simp only [List.foldl_cons, personalityStep, hconst i, if_pos ht]
    exact ih

/-! ## More claims -/

/-- C2: `generate_treasure` appends magic items exactly when
`type == "hoard"` and `cr >= 5`: between 1 and 3 items (the count is one
random draw below 3, plus 1), each drawn from `magic_major` when cr ≥ 11
and from `magic_medium` otherwise; for cr < 5 — or a non-hoard type — the
items list is empty regardless of the random draws. -/
theorem C2_hoard_magic_items (cr : Int) (ty : String) (tbl : TreasureTable)
    (g : Nat → Nat) (r : TreasureResult)
    (hr : generate_treasure cr ty tbl g = .ok r) :
    (ty = "hoard" → 5 ≤ cr →
      (1 ≤ r.items.length ∧ r.items.length ≤ 3
        ∧ (∃ k, r.items.length = randBelow (g k) 3 + 1)
        ∧ ((if 11 ≤ cr then tbl.items.magic_major else tbl.items.magic_medium) ≠ [] →
            ∀ x ∈ r.items,
              x ∈ (if 11 ≤ cr then tbl.items.magic_major else tbl.items.magic_medium))))
    ∧ (cr < 5 → r.items = [])
    ∧ (ty ≠ "hoard" → r.items = []) := by
  obtain ⟨k, hk⟩ := generate_treasure_ok_items cr ty tbl g r hr
  refine ⟨fun hty hcr => ?_, fun hcr => ?_, fun hty => ?_⟩
  · subst hty
    rw [hk, hoardItems_if_pos cr tbl.items g k hcr]
    refine ⟨by simp, by
        simpa using Nat.succ_le_of_lt (randBelow_lt (g k) (by omega : (3:Nat) ≠ 0)),
      ⟨k, by simp⟩, fun hpool x hx => ?_⟩
    simp only [List.mem_map, List.mem_range] at hx
    obtain ⟨i, _, rfl⟩ := hx
    have hlen : (if 11 ≤ cr then tbl.items.magic_major else tbl.items.magic_medium).length ≠ 0 := by
      simpa [List.length_eq_zero] using hpool
    exact getD_mem_of_lt _ _ _ (randBelow_lt _ hlen)
  · rw [hk, hoardItems_if_neg cr ty tbl.items g k (fun hc => absurd hc.2 (by omega))]
  · rw [hk, hoardItems_if_neg cr ty tbl.items g k (fun hc => hty hc.1)]

/-- C2 witness: a hoard at cr 5 with a one-element `magic_medium` pool and
the all-zero random stream yields exactly one item from the medium pool;
a hoard at cr 4 yields no items. -/
theorem C2_witness :
    (1 ≤ (["potion"] : List String).length ∧ (["potion"] : List String).length ≤ 3
      ∧ "potion" ∈ (["potion"] : List String))
    ∧ ({ challengeRating := 4, type := "hoard", coins := [],
         items := [] : TreasureResult }).items = [] := by
  have h5 := C2_hoard_magic_items 5 "hoard"
    { byType := [("hoard", [])], items := ⟨["potion"], ["ring"]⟩ } (fun _ => 0)
    { challengeRating := 5, type := "hoard", coins := [], items := ["potion"] } rfl
  have h4 := C2_hoard_magic_items 4 "hoard"
    { byType := [("hoard", [])], items := ⟨["potion"], ["ring"]⟩ } (fun _ => 0)
    { challengeRating := 4, type := "hoard", coins := [], items := [] } rfl
  obtain ⟨h1, h2, -, -⟩ := h5.1 rfl (by decide)
  exact ⟨⟨h1, h2, by decide⟩, h4.2.1 (by decide)⟩

/-- C7: a coin entry with dice spec "NdM" and multiplier k is the sum of N
draws in [1,M] times k, hence lies in [N·k, N·M·k]; "2d6" parses to (2,6),
its coin-loop value is `rollSum · 10`, and that value is always in
[20,120]. -/
theorem C7_dice_value_bounds :
    (∀ (g : Nat → Nat) (k n m : Nat) (mult : Int), 1 ≤ m → 0 ≤ mult →
      (n : Int) * mult ≤ (rollSum g k n m : Int) * mult
      ∧ (rollSum g k n m : Int) * mult ≤ ((n * m : Nat) : Int) * mult)
    ∧ parseDice "2d6" = (2, 6)
    ∧ (∀ (g : Nat → Nat) (k : Nat) (rest : CoinSpec),
        (coinLoop g (("gp", ⟨"2d6", 10⟩) :: rest) k).1
          = ("gp", (rollSum g k 2 6 : Int) * 10) :: (coinLoop g rest (k + 2)).1)
    ∧ (∀ (g : Nat → Nat) (k : Nat),
        20 ≤ (rollSum g k 2 6 : Int) * 10 ∧ (rollSum g k 2 6 : Int) * 10 ≤ 120) := by
  have hbounds : ∀ (g : Nat → Nat) (k m : Nat), 1 ≤ m → ∀ n : Nat,
      n ≤ rollSum g k n m ∧ rollSum g k n m ≤ n * m := by
    intro g k m hm n
    induction n with
    | zero => simp [rollSum]
    | succ n ih =>
      have hterm : randBelow (g (k + n)) m + 1 ≤ m := by
        have := randBelow_lt (g (k + n)) (by omega : m ≠ 0)
        omega
      have hsucc : rollSum g k (n + 1) m
          = rollSum g k n m + (randBelow (g (k + n)) m + 1) := by
        simp [rollSum, List.range_succ]
      constructor
      · rw [hsucc]; omega
      · rw [hsucc]
        calc rollSum g k n m + (randBelow (g (k + n)) m + 1)
            ≤ n * m + m := Nat.add_le_add ih.2 hterm
          _ = (n + 1) * m := (Nat.succ_mul n m).symm
  refine ⟨fun g k n m mult hm hmult => ?_, by decide, fun g k rest => rfl,
    fun g k => ?_⟩
  · obtain ⟨h1, h2⟩ := hbounds g k m hm n
    exact ⟨mul_le_mul_of_nonneg_right (by exact_mod_cast h1) hmult,
      mul_le_mul_of_nonneg_right (by exact_mod_cast h2) hmult⟩
  · obtain ⟨h1, h2⟩ := hbounds g k 6 (by omega) 2
    omega

/-- C7 witness: "2d6" with multiplier 10 under the all-zero stream. -/
theorem C7_witness :
    ((2 : Nat) : Int) * 10 ≤ (rollSum (fun _ => 0) 0 2 6 : Int) * 10
    ∧ (rollSum (fun _ => 0) 0 2 6 : Int) * 10 ≤ (((2 * 6 : Nat)) : Int) * 10 :=
  C7_dice_value_bounds.1 (fun _ => 0) 0 2 6 10 (by decide) (by decide)

/-- C6: `generate_personality` returns pairwise-distinct traits, at most
`count` of them and at most the pool size; and because duplicate draws are
skipped without retry, a random source that always returns the same raw
draw produces exactly one trait (given a positive count and a non-empty
pool, without which no iteration would run at all). -/
theorem C6_personality_distinct :
    (∀ (count : Nat) (tbl : TraitsTable) (g : Nat → Nat),
      generate_personality count tbl g = .ok { traits := personalitySelect count tbl g }
      ∧ (personalitySelect count tbl g).Nodup
      ∧ (personalitySelect count tbl g).length ≤ count
      ∧ (personalitySelect count tbl g).length ≤ (allTraitsOf tbl).length)
    ∧ (∀ (count : Nat) (tbl : TraitsTable) (c : Nat),
        1 ≤ count → allTraitsOf tbl ≠ [] →
        (personalitySelect count tbl (fun _ => c)).length = 1) := by
  constructor
  · intro count tbl g
    have h := personality_foldl_length (allTraitsOf tbl) g
      (List.range (min count (allTraitsOf tbl).length)) []
    simp only [List.length_nil, List.length_range] at h
    refine ⟨rfl, personality_foldl_nodup _ _ _ _ List.nodup_nil, ?_, ?_⟩
    · exact le_trans h (by omega)
    · exact le_trans h (by omega)
  · intro count tbl c hcount hpool
    have hlen : (allTraitsOf tbl).length ≠ 0 := by
      simpa [List.length_eq_zero] using hpool
    obtain ⟨m, hm⟩ : ∃ m, min count (allTraitsOf tbl).length = m + 1 := by
      have h1 : 1 ≤ min count (allTraitsOf tbl).length := by omega
      exact ⟨_, (Nat.succ_pred_eq_of_pos h1).symm⟩
    set t := (allTraitsOf tbl).getD (randBelow c (allTraitsOf tbl).length) "undefined"
      with ht
    have hstep : personalityStep (allTraitsOf tbl) (fun _ => c) [] 0 = [t] := by
      simp [personalityStep, ht]
    have hsel : personalitySelect count tbl (fun _ => c) = [t] := by
      simp only [personalitySelect, hm, List.range_succ_eq_map, List.foldl_cons, hstep]
      exact personality_foldl_stable _ _ t _ [t] (by simp) (fun i => ht.symm)
    rw [hsel]
    rfl

/-- C6 witness: count 4 over a two-element pool with the constant-zero
stream selects exactly one trait. -/
theorem C6_witness :
    (personalitySelect 4 ⟨["brave", "calm"], [], [], [], []⟩ (fun _ => 0)).length = 1 :=
  C6_personality_distinct.2 4 ⟨["brave", "calm"], [], [], [], []⟩ 0
    (by decide) (by decide)

/-- C5: a fetch failure propagates out of every generator call as a thrown
failure, never as an `{error}` payload (first seven conjuncts); an empty
requested category in a successfully fetched table comes back as a normal
`{error: "<descriptive message>"}` result value, never thrown (remaining
conjuncts, one per generator that has a soft not-found path). -/
theorem C5_error_kinds_distinct :
    (∀ (e : String) (level : Int) (environment difficulty : String) (g : Nat → Nat),
      generate_encounter_call (.error e) level environment difficulty g = .error e)
    ∧ (∀ (e race gender : String) (g : Nat → Nat),
        generate_npc_name_call (.error e) race gender g = .error e)
    ∧ (∀ (e ty : String) (g : Nat → Nat),
        generate_location_name_call (.error e) ty g = .error e)
    ∧ (∀ (e : String) (count : Nat) (g : Nat → Nat),
        generate_personality_call (.error e) count g = .error e)
    ∧ (∀ (e : String) (cr : Int) (ty : String) (g : Nat → Nat),
        generate_treasure_call (.error e) cr ty g = .error e)
    ∧ (∀ (e climate : String) (season : Option String) (g : Nat → Nat),
        generate_weather_call (.error e) climate season g = .error e)
    ∧ (∀ (e theme : String) (level : Int) (g : Nat → Nat),
        generate_plot_hook_call (α := String) (.error e) theme level g = .error e)
    ∧ (∀ (tbl : EncTable) (level : Int) (environment difficulty : String) (g : Nat → Nat),
        encountersFor tbl environment difficulty = [] →
        generate_encounter_call (.ok tbl) level environment difficulty g
          = .ok (.err ("No encounters found for " ++ environment ++ " / " ++ difficulty)))
    ∧ (∀ (tbl : NameTable) (race gender : String) (g : Nat → Nat),
        ((tbl.lookup race).bind (fun m => m.lookup gender)).getD [] = [] →
        generate_npc_name_call (.ok tbl) race gender g
          = .ok (.err ("No names found for " ++ race ++ " / " ++ gender)))
    ∧ (∀ (tbl : LocTable) (ty : String) (g : Nat → Nat),
        tbl.lookup ty = none →
        generate_location_name_call (.ok tbl) ty g
          = .ok (.err ("No location type found: " ++ ty)))
    ∧ (∀ (tbl : WeatherTable) (climate : String) (season : Option String) (g : Nat → Nat),
        weatherOptionsOf tbl climate season = [] →
        generate_weather_call (.ok tbl) climate season g
          = .ok (.err ("No weather found for " ++ climate ++ " / " ++ season.getD "undefined")))
    ∧ (∀ (tbl : HookTable String) (theme : String) (level : Int) (g : Nat → Nat),
        (tbl.lookup theme).getD [] = [] →
        generate_plot_hook_call (.ok tbl) theme level g
          = .ok (.err ("No plot hooks found for theme: " ++ theme))) := by
  refine ⟨fun _ _ _ _ _ => rfl, fun _ _ _ _ => rfl, fun _ _ _ => rfl,
    fun _ _ _ => rfl, fun _ _ _ _ => rfl, fun _ _ _ _ => rfl, fun _ _ _ _ => rfl,
    ?_, ?_, ?_, ?_, ?_⟩
  · intro tbl level environment difficulty g h
    simp [generate_encounter_call, Except.map, generate_encounter, h]
  · intro tbl race gender g h
    simp [generate_npc_name_call, Except.map, generate_npc_name, h]
  · intro tbl ty g h
    simp [generate_location_name_call, Except.map, generate_location_name, h]
  · intro tbl climate season g h
    simp [generate_weather_call, Except.map, generate_weather, h]
  · intro tbl theme level g h
    simp [generate_plot_hook_call, Except.map, generate_plot_hook, h]

/-- C5 witness: a failed fetch thrown through unchanged, and an empty
encounter category returned as a payload. -/
theorem C5_witness :
    generate_encounter_call (.error "fetch failed") 1 "forest" "medium" (fun _ => 0)
      = .error "fetch failed"
    ∧ generate_encounter_call (.ok []) 1 "forest" "medium" (fun _ => 0)
      = .ok (.err ("No encounters found for " ++ "forest" ++ " / " ++ "medium")) :=
  ⟨C5_error_kinds_distinct.1 "fetch failed" 1 "forest" "medium" (fun _ => 0),
   C5_error_kinds_distinct.2.2.2.2.2.2.2.1 [] 1 "forest" "medium" (fun _ => 0) rfl⟩

/-- C9: no generator mutates the fetched table: every state-threaded
variant returns the document state it received, and its result component
agrees with the pure generator of the same arguments. -/
theorem C9_tables_unchanged :
    (∀ (level : Int) (environment difficulty : String) (g : Nat → Nat) (tbl : EncTable),
      generate_encounter_st level environment difficulty g tbl
        = (generate_encounter level environment difficulty tbl g, tbl))
    ∧ (∀ (race gender : String) (g : Nat → Nat) (tbl : NameTable),
        generate_npc_name_st race gender g tbl = (generate_npc_name race gender tbl g, tbl))
    ∧ (∀ (ty : String) (g : Nat → Nat) (tbl : LocTable),
        generate_location_name_st ty g tbl = (generate_location_name ty tbl g, tbl))
    ∧ (∀ (count : Nat) (g : Nat → Nat) (tbl : TraitsTable),
        generate_personality_st count g tbl = (generate_personality count tbl g, tbl))
    ∧ (∀ (cr : Int) (ty : String) (g : Nat → Nat) (tbl : TreasureTable),
        generate_treasure_st cr ty g tbl = (generate_treasure cr ty tbl g, tbl))
    ∧ (∀ (climate : String) (season : Option String) (g : Nat → Nat) (tbl : WeatherTable),
        generate_weather_st climate season g tbl = (generate_weather climate season tbl g, tbl))
    ∧ (∀ (theme : String) (level : Int) (g : Nat → Nat) (tbl : HookTable String),
        generate_plot_hook_st theme level g tbl = (generate_plot_hook theme level tbl g, tbl)) := by
  refine ⟨?_, ?_, ?_, ?_, ?_, ?_, ?_⟩
  · intro level environment difficulty g tbl
    by_cases h : (encountersFor tbl environment difficulty).length = 0 <;>
      simp [generate_encounter_st, generate_encounter, h]
  · intro race gender g tbl
    by_cases h : ((((tbl.lookup race).bind (fun m => m.lookup gender))).getD []).length = 0 <;>
      simp [generate_npc_name_st, generate_npc_name, h]
  · intro ty g tbl
    rcases h : tbl.lookup ty with _ | loc <;>
      simp [generate_location_name_st, generate_location_name, h]
  · intro count g tbl
    rfl
  · intro cr ty g tbl
    rcases h : tbl.byType.lookup ty with _ | bucketMap <;>
      simp [generate_treasure_st, generate_treasure, h]
  · intro climate season g tbl
    by_cases h : (weatherOptionsOf tbl climate season).length = 0 <;>
      simp [generate_weather_st, generate_weather, h]
  · intro theme level g tbl
    by_cases h : (((tbl.lookup theme)).getD []).length = 0 <;>
      simp [generate_plot_hook_st, generate_plot_hook, h]

/-- C10: every generator is deterministic given its collaborators: equal
arguments, equal fetched tables and a random stream producing the same
draws yield identical results. -/
theorem C10_deterministic :
    (∀ (level : Int) (environment difficulty : String) (tbl : EncTable)
        (g₁ g₂ : Nat → Nat), (∀ i, g₁ i = g₂ i) →
      generate_encounter level environment difficulty tbl g₁
        = generate_encounter level environment difficulty tbl g₂)
    ∧ (∀ (race gender : String) (tbl : NameTable) (g₁ g₂ : Nat → Nat),
        (∀ i, g₁ i = g₂ i) →
        generate_npc_name race gender tbl g₁ = generate_npc_name race gender tbl g₂)
    ∧ (∀ (ty : String) (tbl : LocTable) (g₁ g₂ : Nat → Nat),
        (∀ i, g₁ i = g₂ i) →
        generate_location_name ty tbl g₁ = generate_location_name ty tbl g₂)
    ∧ (∀ (count : Nat) (tbl : TraitsTable) (g₁ g₂ : Nat → Nat),
        (∀ i, g₁ i = g₂ i) →
        generate_personality count tbl g₁ = generate_personality count tbl g₂)
    ∧ (∀ (cr : Int) (ty : String) (tbl : TreasureTable) (g₁ g₂ : Nat → Nat),
        (∀ i, g₁ i = g₂ i) →
        generate_treasure cr ty tbl g₁ = generate_treasure cr ty tbl g₂)
    ∧ (∀ (climate : String) (season : Option String) (tbl : WeatherTable)
        (g₁ g₂ : Nat → Nat), (∀ i, g₁ i = g₂ i) →
        generate_weather climate season tbl g₁ = generate_weather climate season tbl g₂)
    ∧ (∀ (theme : String) (level : Int) (tbl : HookTable String) (g₁ g₂ : Nat → Nat),
        (∀ i, g₁ i = g₂ i) →
        generate_plot_hook theme level tbl g₁ = generate_plot_hook theme level tbl g₂) := by
  refine ⟨fun _ _ _ _ g₁ g₂ h => ?_, fun _ _ _ g₁ g₂ h => ?_, fun _ _ g₁ g₂ h => ?_,
    fun _ _ g₁ g₂ h => ?_, fun _ _ _ g₁ g₂ h => ?_, fun _ _ _ g₁ g₂ h => ?_,
    fun _ _ _ g₁ g₂ h => ?_⟩ <;>
  · rw [funext h]

/-- C10 witness: two syntactically different but pointwise-equal streams
give the same encounter result. -/
theorem C10_witness :
    generate_encounter 1 "forest" "medium"
        [("forest", [("medium", [[("monster", JVal.str "wolf")]])])] (fun _ => 0)
      = generate_encounter 1 "forest" "medium"
          [("forest", [("medium", [[("monster", JVal.str "wolf")]])])] (fun i => 0 * i) :=
  C10_deterministic.1 1 "forest" "medium"
    [("forest", [("medium", [[("monster", JVal.str "wolf")]])])]
    (fun _ => 0) (fun i => 0 * i) (fun i => by simp)

end MCP
